import Mathlib

/-!
Shallow embedding of the `httperror` Go package (perbu/httperror):
error values (`httperror.go`, `errors.go`) and handler adapters /
formatters (`handler.go`), together with theorems checking the
natural-language specification against this embedding.

Go `map[string]string` values are modelled as association lists with
distinct keys (the Go map invariant, captured by `WFmap`); `map[k] = v`
is `setKV`, map indexing is `lookupKV`, and a `for k, v := range src`
copy loop onto a destination map is `mapApply`.  A `nil` Go map is
`Option.none` at the field that can hold one.  Iteration order of a Go
map is unspecified, so all header-map theorems are stated through
`lookupKV`, which is order-independent for maps with distinct keys.
-/

namespace Httperror

/-- Go `map[string]string`, as an association list. -/
abbrev HeaderMap := List (String × String)

/-- Go map assignment `h[key] = val`: replace the binding if the key is
present, otherwise append a fresh binding. -/
def setKV : HeaderMap → String → String → HeaderMap
  | [], key, val => [(key, val)]
  | (k, v) :: rest, key, val =>
      if k = key then (key, val) :: rest else (k, v) :: setKV rest key val

/-- Go map indexing `h[key]` (with its `ok` bit as `Option`). -/
def lookupKV : HeaderMap → String → Option String
  | [], _ => none
  | (k, v) :: rest, key => if k = key then some v else lookupKV rest key

/-- The copy loop `for k, v := range src { dst[k] = v }`. -/
def mapApply (dst src : HeaderMap) : HeaderMap :=
  src.foldl (fun acc p => setKV acc p.1 p.2) dst

/-- The Go map invariant: every key occurs at most once. -/
def WFmap (h : HeaderMap) : Prop := (h.map Prod.fst).Nodup

instance : DecidablePred WFmap := fun h =>
  inferInstanceAs (Decidable ((h.map Prod.fst).Nodup))

/--
A Go `error` value, as far as this package can observe one:

* `basic code message headers cause` is the package's own concrete
  `*basicError` struct (httperror.go); `headers = none` models a `nil`
  map in the `headers` field,
* `custom errMsg (some (code, message, headers))` is a third-party
  value that implements the `HTTPError` interface, with its own
  `Error()`, `StatusCode()`, `Message()` and `Headers()` results,
* `custom errMsg none` is a plain `error` that does not implement
  `HTTPError`, only `Error()`.
-/
inductive GoError where
  | basic (code : Int) (message : String) (headers : Option HeaderMap)
      (cause : Option GoError)
  | custom (errMsg : String) (cap : Option (Int × String × HeaderMap))

/-- The Go type assertion `err.(HTTPError)` succeeds. -/
def GoError.isHTTPError : GoError → Bool
  | .basic _ _ _ _ => true
  | .custom _ (some _) => true
  | .custom _ none => false

/-- The Go type assertion `err.(*basicError)` succeeds. -/
def GoError.isBasic : GoError → Bool
  | .basic _ _ _ _ => true
  | .custom _ _ => false

/-- `basicError.Error` (httperror.go): the message, with the cause's own
diagnostic string appended after `": "` when a cause is present; for a
third-party value, whatever its `Error()` returns. -/
def GoError.Error : GoError → String
  | .basic _ message _ none => message
  | .basic _ message _ (some c) => message ++ ": " ++ c.Error
  | .custom errMsg _ => errMsg

/-- `basicError.StatusCode`, or the third-party value's `StatusCode()`.
(`0` for a non-`HTTPError`, which has no such method; never used there.) -/
def GoError.StatusCode : GoError → Int
  | .basic code _ _ _ => code
  | .custom _ (some (code, _, _)) => code
  | .custom _ none => 0

/-- `basicError.Message`, or the third-party value's `Message()`. -/
def GoError.Message : GoError → String
  | .basic _ message _ _ => message
  | .custom _ (some (_, message, _)) => message
  | .custom _ none => ""

/-- `basicError.Headers` (httperror.go): a fresh empty map when the
field is `nil`, otherwise the field; or the third-party `Headers()`. -/
def GoError.Headers : GoError → HeaderMap
  | .basic _ _ none _ => []
  | .basic _ _ (some h) _ => h
  | .custom _ (some (_, _, h)) => h
  | .custom _ none => []

/-- `basicError.Unwrap` (httperror.go): the recorded cause. -/
def GoError.Unwrap : GoError → Option GoError
  | .basic _ _ _ cause => cause
  | .custom _ _ => none

/-- `New` (httperror.go): a `basicError` with an empty (non-nil) header
map and no cause. -/
def New (code : Int) (message : String) : GoError :=
  .basic code message (some []) none

/-- `Wrap` (httperror.go): like `New`, additionally recording the cause. -/
def Wrap (code : Int) (message : String) (err : GoError) : GoError :=
  .basic code message (some []) (some err)

/-- `WithHeaders` (httperror.go).  For the concrete `*basicError`: copy
the existing headers into a fresh map, then apply the argument map on
top, keeping code, message and cause.  For any other `HTTPError`
implementation: copy the argument map into a fresh map, then apply the
value's own `Headers()` on top, and rebuild from the accessors (the
cause is not carried over). -/
def WithHeaders (err : GoError) (headers : HeaderMap) : GoError :=
  match err with
  | .basic code message h cause =>
      .basic code message
        (some (mapApply (mapApply [] (h.getD [])) headers)) cause
  | .custom _ _ =>
      .basic err.StatusCode err.Message
        (some (mapApply (mapApply [] headers) err.Headers)) none

/-- `http.StatusText` (net/http): the canonical reason phrase, `""` for
an unregistered code. -/
def statusText (code : Int) : String :=
  match code with
  | 100 => "Continue"
  | 101 => "Switching Protocols"
  | 102 => "Processing"
  | 103 => "Early Hints"
  | 200 => "OK"
  | 201 => "Created"
  | 202 => "Accepted"
  | 203 => "Non-Authoritative Information"
  | 204 => "No Content"
  | 205 => "Reset Content"
  | 206 => "Partial Content"
  | 207 => "Multi-Status"
  | 208 => "Already Reported"
  | 226 => "IM Used"
  | 300 => "Multiple Choices"
  | 301 => "Moved Permanently"
  | 302 => "Found"
  | 303 => "See Other"
  | 304 => "Not Modified"
  | 305 => "Use Proxy"
  | 307 => "Temporary Redirect"
  | 308 => "Permanent Redirect"
  | 400 => "Bad Request"
  | 401 => "Unauthorized"
  | 402 => "Payment Required"
  | 403 => "Forbidden"
  | 404 => "Not Found"
  | 405 => "Method Not Allowed"
  | 406 => "Not Acceptable"
  | 407 => "Proxy Authentication Required"
  | 408 => "Request Timeout"
  | 409 => "Conflict"
  | 410 => "Gone"
  | 411 => "Length Required"
  | 412 => "Precondition Failed"
  | 413 => "Request Entity Too Large"
  | 414 => "Request URI Too Long"
  | 415 => "Unsupported Media Type"
  | 416 => "Requested Range Not Satisfiable"
  | 417 => "Expectation Failed"
  | 418 => "I\x27m a teapot"
  | 421 => "Misdirected Request"
  | 422 => "Unprocessable Entity"
  | 423 => "Locked"
  | 424 => "Failed Dependency"
  | 425 => "Too Early"
  | 426 => "Upgrade Required"
  | 428 => "Precondition Required"
  | 429 => "Too Many Requests"
  | 431 => "Request Header Fields Too Large"
  | 451 => "Unavailable For Legal Reasons"
  | 500 => "Internal Server Error"
  | 501 => "Not Implemented"
  | 502 => "Bad Gateway"
  | 503 => "Service Unavailable"
  | 504 => "Gateway Timeout"
  | 505 => "HTTP Version Not Supported"
  | 506 => "Variant Also Negotiates"
  | 507 => "Insufficient Storage"
  | 508 => "Loop Detected"
  | 510 => "Not Extended"
  | 511 => "Network Authentication Required"
  | _ => ""

/-- `BadRequest` (errors.go): 400, message as given. -/
def BadRequest (message : String) : GoError := New 400 message

/-- `Unauthorized` (errors.go): 401, message as given. -/
def Unauthorized (message : String) : GoError := New 401 message

/-- `Forbidden` (errors.go): 403, message as given. -/
def Forbidden (message : String) : GoError := New 403 message

/-- `NotFound` (errors.go): 404, defaulting the empty message. -/
def NotFound (message : String) : GoError :=
  New 404 (if message = "" then "Not Found" else message)

/-- `MethodNotAllowed` (errors.go): 405, defaulting the empty message. -/
def MethodNotAllowed (message : String) : GoError :=
  New 405 (if message = "" then "Method Not Allowed" else message)

/-- `Conflict` (errors.go): 409, message as given. -/
def Conflict (message : String) : GoError := New 409 message

/-- `UnprocessableEntity` (errors.go): 422, message as given. -/
def UnprocessableEntity (message : String) : GoError := New 422 message

/-- `InternalServerError` (errors.go): 500, defaulting the empty message. -/
def InternalServerError (message : String) : GoError :=
  New 500 (if message = "" then "Internal Server Error" else message)

/-- `NotImplemented` (errors.go): 501, defaulting the empty message. -/
def NotImplemented (message : String) : GoError :=
  New 501 (if message = "" then "Not Implemented" else message)

/-- `BadGateway` (errors.go): 502, defaulting the empty message. -/
def BadGateway (message : String) : GoError :=
  New 502 (if message = "" then "Bad Gateway" else message)

/-- `ServiceUnavailable` (errors.go): 503, defaulting the empty message. -/
def ServiceUnavailable (message : String) : GoError :=
  New 503 (if message = "" then "Service Unavailable" else message)

/-- `GatewayTimeout` (errors.go): 504, defaulting the empty message. -/
def GatewayTimeout (message : String) : GoError :=
  New 504 (if message = "" then "Gateway Timeout" else message)

/-- `AsHTTPError` (httperror.go): identity on values already
implementing `HTTPError`, otherwise a fixed generic 500. -/
def AsHTTPError (err : GoError) : GoError :=
  if err.isHTTPError then err
  else InternalServerError "An unexpected error occurred"

/-!
### The response writer and the handler adapters (handler.go)

`http.ResponseWriter` is modelled as the observable response state:
headers set so far, the committed status line (the first `WriteHeader`
wins, as in net/http, and a `Write` before any `WriteHeader` commits
200), and the body bytes written so far.  A user handler function is a
pure function from the writer state to the new writer state plus an
optional returned error; the request argument is opaque to every
definition the claims mention and is omitted.
-/

/-- The observable state of an `http.ResponseWriter`. -/
structure ResponseWriter where
  headers : HeaderMap
  status : Option Int
  body : String
deriving DecidableEq

/-- `w.Header().Set(key, val)`. -/
def ResponseWriter.setHeader (w : ResponseWriter) (key val : String) :
    ResponseWriter :=
  { w with headers := setKV w.headers key val }

/-- `w.WriteHeader(code)`: only the first status write commits. -/
def ResponseWriter.writeHeader (w : ResponseWriter) (code : Int) :
    ResponseWriter :=
  match w.status with
  | some _ => w
  | none => { w with status := some code }

/-- `w.Write(b)`: append body bytes, committing status 200 if no status
was written yet. -/
def ResponseWriter.write (w : ResponseWriter) (b : String) : ResponseWriter :=
  match w.status with
  | some _ => { w with body := w.body ++ b }
  | none => { w with status := some 200, body := w.body ++ b }

/-- A `Formatter`: writes a complete error response from the normalized
error value. -/
abbrev Formatter := ResponseWriter → GoError → ResponseWriter

/-- `PlainTextFormatter.Format` (handler.go): `Content-Type:
text/plain`, the error's status code, the message bytes verbatim. -/
def PlainTextFormatter : Formatter := fun w err =>
  ((w.setHeader "Content-Type" "text/plain").writeHeader err.StatusCode).write
    err.Message

/-- A user handler function: `func(w, r) error`, as a pure state
transformer on the writer returning the optional error. -/
abbrev HandlerFunc := ResponseWriter → ResponseWriter × Option GoError

/-- The `Handler` struct (handler.go): wrapped user function plus the
(possibly absent) formatter. -/
structure Handler where
  handler : HandlerFunc
  formatter : Option Formatter

/-- `NewHandler` (handler.go): default formatter is plain text. -/
def NewHandler (h : HandlerFunc) : Handler :=
  { handler := h, formatter := some PlainTextFormatter }

/-- `NewHandlerWithFormatter` (handler.go). -/
def NewHandlerWithFormatter (h : HandlerFunc) (formatter : Formatter) :
    Handler :=
  { handler := h, formatter := some formatter }

/-- The loop `for key, value := range httpErr.Headers() {
w.Header().Set(key, value) }` in `handleError`. -/
def setErrHeaders (w : ResponseWriter) (hs : HeaderMap) : ResponseWriter :=
  hs.foldl (fun acc p => acc.setHeader p.1 p.2) w

/-- `Handler.handleError` (handler.go): normalize via `AsHTTPError`, set
every header of the normalized value, then format — or, with no
formatter, write status and raw message bytes directly. -/
def Handler.handleError (h : Handler) (w : ResponseWriter) (err : GoError) :
    ResponseWriter :=
  let httpErr := AsHTTPError err
  let w1 := setErrHeaders w httpErr.Headers
  match h.formatter with
  | some f => f w1 httpErr
  | none => (w1.writeHeader httpErr.StatusCode).write httpErr.Message

/-- `Handler.ServeHTTP` (handler.go): run the user function; on a nil
error do nothing further, otherwise hand off to `handleError`. -/
def Handler.ServeHTTP (h : Handler) (w : ResponseWriter) : ResponseWriter :=
  match h.handler w with
  | (w1, none) => w1
  | (w1, some err) => h.handleError w1 err

/-- A context-aware user handler: `func(ctx, w, r) error`; the context
(opaque here) is passed as first argument. -/
abbrev ContextHandlerFunc := Unit → ResponseWriter → ResponseWriter × Option GoError

/-- The `ContextHandler` struct (handler.go). -/
structure ContextHandler where
  handler : ContextHandlerFunc
  formatter : Option Formatter

/-- `NewContextHandler` (handler.go): default formatter is plain text. -/
def NewContextHandler (h : ContextHandlerFunc) : ContextHandler :=
  { handler := h, formatter := some PlainTextFormatter }

/-- `ContextHandler.handleError` (handler.go), identical to
`Handler.handleError`. -/
def ContextHandler.handleError (h : ContextHandler) (w : ResponseWriter)
    (err : GoError) : ResponseWriter :=
  let httpErr := AsHTTPError err
  let w1 := setErrHeaders w httpErr.Headers
  match h.formatter with
  | some f => f w1 httpErr
  | none => (w1.writeHeader httpErr.StatusCode).write httpErr.Message

/-- `ContextHandler.ServeHTTP` (handler.go): run the user function with
the request's context, then as `Handler.ServeHTTP`. -/
def ContextHandler.ServeHTTP (h : ContextHandler) (w : ResponseWriter) :
    ResponseWriter :=
  match h.handler () w with
  | (w1, none) => w1
  | (w1, some err) => h.handleError w1 err

/-!
### The JSON formatter (httperror.go)

`encoding/json` marshalling of the anonymous response struct
`{ Error string "json:error"; Status int "json:status";
Code string "json:code,omitempty" }` is embedded concretely:
`jsonQuote` is Go's JSON string encoder (with its default HTML
escaping), `marshalErrorResponse` is `json.Marshal` of that struct and
`marshalIndentErrorResponse` is `json.MarshalIndent(response, "", "  ")`.
-/

/-- A lowercase hexadecimal digit. -/
def hexDigit (n : Nat) : Char :=
  if n < 10 then Char.ofNat (48 + n) else Char.ofNat (87 + n)

/-- Go `encoding/json` escaping of one character (default encoder:
HTML-escapes `<`, `>`, `&`, escapes the JSON metacharacters and control
characters, and the line separators U+2028/U+2029). -/
def jsonEscapeChar (c : Char) : String :=
  if c = '"' then "\\\""
  else if c = '\\' then "\\\\"
  else if c = '\n' then "\\n"
  else if c = '\r' then "\\r"
  else if c = '\t' then "\\t"
  else if c.toNat < 32 then
    "\\u00" ++ String.mk [hexDigit (c.toNat / 16), hexDigit (c.toNat % 16)]
  else if c = '<' then "\\u003c"
  else if c = '>' then "\\u003e"
  else if c = '&' then "\\u0026"
  else if c.toNat = 0x2028 then "\\u2028"
  else if c.toNat = 0x2029 then "\\u2029"
  else String.mk [c]

/-- Go JSON encoding of a string value, quotes included. -/
def jsonQuote (s : String) : String :=
  "\"" ++ String.join (s.data.map jsonEscapeChar) ++ "\""

/-- `json.Marshal` of the formatter's response struct; `Code` carries
`omitempty`, so an empty reason phrase drops the field. -/
def marshalErrorResponse (msg : String) (status : Int) (code : String) :
    String :=
  "\x7b\"error\":" ++ jsonQuote msg ++ ",\"status\":" ++ toString status ++
    (if code = "" then "" else ",\"code\":" ++ jsonQuote code) ++ "\x7d"

/-- `json.MarshalIndent(response, "", "  ")` of the same struct. -/
def marshalIndentErrorResponse (msg : String) (status : Int) (code : String) :
    String :=
  "\x7b\n  \"error\": " ++ jsonQuote msg ++ ",\n  \"status\": " ++
    toString status ++
    (if code = "" then "" else ",\n  \"code\": " ++ jsonQuote code) ++
    "\n\x7d"

/-- `NewJSONFormatter` (httperror.go): `Content-Type: application/json`,
the error's status code, and the marshalled response struct (indented
when `prettyPrint`). -/
def NewJSONFormatter (prettyPrint : Bool) : Formatter := fun w err =>
  let w1 := (w.setHeader "Content-Type" "application/json").writeHeader
    err.StatusCode
  let code := statusText err.StatusCode
  let data :=
    if prettyPrint then
      marshalIndentErrorResponse err.Message err.StatusCode code
    else
      marshalErrorResponse err.Message err.StatusCode code
  w1.write data

/-!
### A store-passing model of header-map allocation (for the frame claim)

Go maps are mutable references into a heap.  To state that
`WithHeaders` never shares mutable header storage, the same function is
embedded a second time with the heap explicit: a `Store` is the list of
allocated header maps, a map value is its index into the store,
`make(map[string]string)` is `alloc`, and an in-place mutation of a map
is `writeRef`.  `Heap.WithHeaders` mirrors `WithHeaders` line by line,
with the `make` calls made visible.
-/

namespace Heap

/-- The heap of allocated Go header maps; a map value is an index. -/
abbrev Store := List HeaderMap

/-- Dereference a map: the contents stored at the index. -/
def readRef (s : Store) (r : Nat) : HeaderMap := (s[r]?).getD []

/-- `make(map[string]string)` initialised to `h`: extend the store,
returning the fresh reference. -/
def alloc (s : Store) (h : HeaderMap) : Nat × Store := (s.length, s ++ [h])

/-- Mutate the map at reference `r` in place. -/
def writeRef (s : Store) (r : Nat) (h : HeaderMap) : Store := s.set r h

/-- `GoError` with header maps as store references: `headersRef = none`
is a `nil` map field, and a third-party `HTTPError`'s `Headers()`
returns the map at its reference. -/
inductive GoError where
  | basic (code : Int) (message : String) (headersRef : Option Nat)
      (cause : Option GoError)
  | custom (errMsg : String) (cap : Option (Int × String × Nat))

/-- The store reference of the value's header map, when it holds one. -/
def GoError.headerRef : GoError → Option Nat
  | .basic _ _ r _ => r
  | .custom _ (some (_, _, r)) => some r
  | .custom _ none => none

/-- `StatusCode()` in the store model. -/
def GoError.StatusCode : GoError → Int
  | .basic code _ _ _ => code
  | .custom _ (some (code, _, _)) => code
  | .custom _ none => 0

/-- `Message()` in the store model. -/
def GoError.Message : GoError → String
  | .basic _ message _ _ => message
  | .custom _ (some (_, message, _)) => message
  | .custom _ none => ""

/-- `Headers()` in the store model: the contents of the referenced map
(a `nil` field reads as empty; `basicError.Headers` returns a fresh
empty map there, whose contents are `[]`). -/
def GoError.Headers (s : Store) : GoError → HeaderMap
  | .basic _ _ none _ => []
  | .basic _ _ (some r) _ => readRef s r
  | .custom _ (some (_, _, r)) => readRef s r
  | .custom _ none => []

/-- `WithHeaders` (httperror.go) with allocation explicit: both paths
build their result in a freshly `make`d map; the `*basicError` path
copies the existing headers then the argument map, the fallback path
copies the argument map then the value's own `Headers()`. -/
def WithHeaders (s : Store) (err : GoError) (headers : HeaderMap) :
    GoError × Store :=
  match err with
  | .basic code message hr cause =>
      let base := match hr with
        | none => []
        | some r => readRef s r
      let newHeaders := mapApply (mapApply [] base) headers
      let (r, s1) := alloc s newHeaders
      (.basic code message (some r) cause, s1)
  | .custom _ _ =>
      let newHeaders := mapApply (mapApply [] headers) (err.Headers s)
      let (r, s1) := alloc s newHeaders
      (.basic err.StatusCode err.Message (some r) none, s1)

end Heap

/-!
### Lemmas about header-map operations
-/

/-- First-`some` choice, used to phrase "the left map wins on a key
collision". -/
def orO (a b : Option String) : Option String :=
  match a with
  | some v => some v
  | none => b

theorem lookup_setKV (h : HeaderMap) (key val k : String) :
    lookupKV (setKV h key val) k =
      if key = k then some val else lookupKV h k := by
  induction h with
  | nil =>
      simp [setKV, lookupKV]
  | cons p rest ih =>
      obtain ⟨a, b⟩ := p
      by_cases hak : a = key
      · subst hak
        by_cases hk : a = k
        · subst hk
          simp [setKV, lookupKV]
        · simp [setKV, lookupKV, hk]
      · by_cases hk : a = k
        · subst hk
          have hka : ¬ key = a := Ne.symm hak
          simp [setKV, lookupKV, hak, hka]
        · simp [setKV, lookupKV, hak, hk, ih]

theorem lookup_eq_none_of_not_mem (h : HeaderMap) (k : String)
    (hk : k ∉ h.map Prod.fst) : lookupKV h k = none := by
  induction h with
  | nil => rfl
  | cons p rest ih =>
      simp only [List.map_cons, List.mem_cons, not_or] at hk
      have h1 : ¬ p.1 = k := fun hkk => hk.1 hkk.symm
      obtain ⟨a, b⟩ := p
      simp only [lookupKV, if_neg h1, ih hk.2]

theorem lookup_mapApply (src : HeaderMap) (hsrc : WFmap src) :
    ∀ (dst : HeaderMap) (k : String),
      lookupKV (mapApply dst src) k =
        orO (lookupKV src k) (lookupKV dst k) := by
  induction src with
  | nil =>
      intro dst k
      simp only [mapApply, List.foldl_nil, lookupKV, orO]
  | cons p rest ih =>
      intro dst k
      have hWF : WFmap rest := by
        have := hsrc
        simp only [WFmap, List.map_cons, List.nodup_cons] at this
        exact this.2
      have hnot : p.1 ∉ rest.map Prod.fst := by
        have := hsrc
        simp only [WFmap, List.map_cons, List.nodup_cons] at this
        exact this.1
      have hstep : mapApply dst (p :: rest) = mapApply (setKV dst p.1 p.2) rest := by
        simp only [mapApply, List.foldl_cons]
      rw [hstep, ih hWF, lookup_setKV]
      obtain ⟨a, b⟩ := p
      by_cases hk : a = k
      · subst hk
        have hnone : lookupKV rest a = none := lookup_eq_none_of_not_mem rest a hnot
        simp [lookupKV, hnone, orO]
      · simp [lookupKV, hk, orO]

theorem lookup_mapApply_nil (src : HeaderMap) (hsrc : WFmap src) (k : String) :
    lookupKV (mapApply [] src) k = lookupKV src k := by
  rw [lookup_mapApply src hsrc [] k]
  cases lookupKV src k <;> rfl

/-!
### Claims about the error value (C1, C3, C4, C5, C9, C10)
-/

/-- C1 (counterexample): the claim that the argument map's entry wins on
every key collision fails for a value that is not the concrete
`*basicError`: for the conforming third-party value with header
`X-A ↦ old` and argument map `X-A ↦ new`, `WithHeaders` keeps `old`,
because the fallback path applies the argument map first and the value's
own headers second. -/
theorem withHeaders_custom_collision_counterexample :
    lookupKV (Httperror.WithHeaders
        (.custom "boom" (some (404, "m", [("X-A", "old")])))
        [("X-A", "new")]).Headers "X-A" = some "old" ∧
    lookupKV [("X-A", "new")] "X-A" = some "new" ∧
    (some "old" : Option String) ≠ some "new" := by
  decide

/-- C1 (amended): `WithHeaders e m` preserves status code and message.
On the concrete `*basicError` the result's headers are `e`'s headers
with `m` applied on top, `m` winning on every key collision.  On any
other conforming value the operation still succeeds by reconstruction
from the accessors, but there the value's own headers are applied on
top of `m`, so `e`'s entry wins on a key collision and `m` only
contributes keys absent from `e`'s headers. -/
theorem withHeaders_merge_spec (m : HeaderMap) (k : String) (hm : WFmap m) :
    (∀ (code : Int) (message : String) (h : Option HeaderMap)
        (cause : Option GoError), WFmap (h.getD []) →
      (WithHeaders (.basic code message h cause) m).StatusCode = code ∧
      (WithHeaders (.basic code message h cause) m).Message = message ∧
      lookupKV (WithHeaders (.basic code message h cause) m).Headers k =
        orO (lookupKV m k)
          (lookupKV (GoError.Headers (.basic code message h cause)) k)) ∧
    (∀ (em : String) (st : Int) (msg : String) (hs : HeaderMap), WFmap hs →
      (WithHeaders (.custom em (some (st, msg, hs))) m).StatusCode = st ∧
      (WithHeaders (.custom em (some (st, msg, hs))) m).Message = msg ∧
      lookupKV (WithHeaders (.custom em (some (st, msg, hs))) m).Headers k =
        orO (lookupKV hs k) (lookupKV m k)) := by
  constructor
  · intro code message h cause hbase
    refine ⟨rfl, rfl, ?_⟩
    show lookupKV (mapApply (mapApply [] (h.getD [])) m) k = _
    rw [lookup_mapApply m hm, lookup_mapApply_nil (h.getD []) hbase]
    cases h <;> rfl
  · intro em st msg hs hhs
    refine ⟨rfl, rfl, ?_⟩
    show lookupKV (mapApply (mapApply [] m) hs) k = _
    rw [lookup_mapApply hs hhs, lookup_mapApply_nil m hm]

/-- Witness for C1's amended theorem at concrete inputs: on a
`basicError` with `A ↦ 0`, applying `A ↦ 1` gives `A ↦ 1` (argument
wins), and on a third-party value with `A ↦ 0`, applying `A ↦ 1` keeps
`A ↦ 0` (value wins). -/
theorem withHeaders_merge_spec_witness :
    lookupKV (WithHeaders (.basic 400 "msg" (some [("A", "0"), ("B", "2")])
        none) [("A", "1")]).Headers "A" = some "1" ∧
    lookupKV (WithHeaders (.custom "boom" (some (404, "m", [("A", "0")])))
        [("A", "1")]).Headers "A" = some "0" := by
  constructor
  · have h := (withHeaders_merge_spec [("A", "1")] "A" (by decide)).1 400
      "msg" (some [("A", "0"), ("B", "2")]) none (by decide)
    exact h.2.2.trans (by decide)
  · have h := (withHeaders_merge_spec [("A", "1")] "A" (by decide)).2 "boom"
      404 "m" [("A", "0")] (by decide)
    exact h.2.2.trans (by decide)

/-- C3: `AsHTTPError` is the identity on any value already implementing
`HTTPError` (status, message, headers unchanged since the very value is
returned); on any other error it returns a 500 with the fixed message
"An unexpected error occurred"; and it is idempotent. -/
theorem asHTTPError_spec (e : GoError) :
    (e.isHTTPError = true → AsHTTPError e = e) ∧
    (e.isHTTPError = false →
      (AsHTTPError e).StatusCode = 500 ∧
      (AsHTTPError e).Message = "An unexpected error occurred") ∧
    AsHTTPError (AsHTTPError e) = AsHTTPError e := by
  cases e with
  | basic c msg h ca =>
      refine ⟨fun _ => rfl, fun hf => ?_, rfl⟩
      simp [GoError.isHTTPError] at hf
  | custom em cap =>
      cases cap with
      | none =>
          refine ⟨fun ht => ?_, fun _ => ⟨rfl, rfl⟩, rfl⟩
          simp [GoError.isHTTPError] at ht
      | some c =>
          refine ⟨fun _ => rfl, fun hf => ?_, rfl⟩
          simp [GoError.isHTTPError] at hf

/-- Witness for C3 at concrete inputs: identity on a conforming value,
fixed generic 500 on a plain error whose own message is not propagated. -/
theorem asHTTPError_spec_witness :
    AsHTTPError (New 404 "x") = New 404 "x" ∧
    (AsHTTPError (.custom "secret detail" none)).StatusCode = 500 ∧
    (AsHTTPError (.custom "secret detail" none)).Message =
      "An unexpected error occurred" := by
  refine ⟨(asHTTPError_spec (New 404 "x")).1 rfl, ?_, ?_⟩
  · exact ((asHTTPError_spec (.custom "secret detail" none)).2.1 rfl).1
  · exact ((asHTTPError_spec (.custom "secret detail" none)).2.1 rfl).2

/-- C4: every status-family constructor returns its documented status
code; the message is passed through, and the
404/405/500/501/502/503/504 variants substitute their documented
default message for the empty string. -/
theorem constructors_spec (m : String) :
    (BadRequest m).StatusCode = 400 ∧ (BadRequest m).Message = m ∧
    (Unauthorized m).StatusCode = 401 ∧ (Unauthorized m).Message = m ∧
    (Forbidden m).StatusCode = 403 ∧ (Forbidden m).Message = m ∧
    (NotFound m).StatusCode = 404 ∧
    (MethodNotAllowed m).StatusCode = 405 ∧
    (Conflict m).StatusCode = 409 ∧ (Conflict m).Message = m ∧
    (UnprocessableEntity m).StatusCode = 422 ∧
    (UnprocessableEntity m).Message = m ∧
    (InternalServerError m).StatusCode = 500 ∧
    (NotImplemented m).StatusCode = 501 ∧
    (BadGateway m).StatusCode = 502 ∧
    (ServiceUnavailable m).StatusCode = 503 ∧
    (GatewayTimeout m).StatusCode = 504 ∧
    (NotFound "").Message = "Not Found" ∧
    (MethodNotAllowed "").Message = "Method Not Allowed" ∧
    (InternalServerError "").Message = "Internal Server Error" ∧
    (NotImplemented "").Message = "Not Implemented" ∧
    (BadGateway "").Message = "Bad Gateway" ∧
    (ServiceUnavailable "").Message = "Service Unavailable" ∧
    (GatewayTimeout "").Message = "Gateway Timeout" := by
  and_intros <;> rfl

/-- C5: the diagnostic string of `New code s` is `s`; for
`Wrap code s cause` it is `s` followed by `": "` and the cause's own
diagnostic string; `Message()` stays `s` in both cases. -/
theorem new_wrap_error_spec (c : Int) (s : String) (e : GoError) :
    (New c s).Error = s ∧
    (Wrap c s e).Error = s ++ ": " ++ e.Error ∧
    (New c s).Message = s ∧
    (Wrap c s e).Message = s :=
  ⟨rfl, rfl, rfl, rfl⟩

/-- C9: rebuilding a non-built-in conforming value through `WithHeaders`
drops the wrapped cause: the result unwraps to nothing and its
diagnostic string collapses to its message, whatever diagnostic string
(`em`, possibly containing cause text) the original produced. -/
theorem withHeaders_custom_drops_cause (em : String)
    (cap : Int × String × HeaderMap) (m : HeaderMap) :
    (WithHeaders (.custom em (some cap)) m).Unwrap = none ∧
    (WithHeaders (.custom em (some cap)) m).Error =
      (WithHeaders (.custom em (some cap)) m).Message ∧
    GoError.Error (.custom em (some cap)) = em :=
  ⟨rfl, rfl, rfl⟩

/-- C10: `Headers()` on the built-in representation never yields a nil
map: a nil field reads as a freshly made empty map, and every value
built by `New`, `Wrap` or a status-family constructor reports an empty
header map. -/
theorem headers_never_nil_spec (c : Int) (msg : String)
    (ca : Option GoError) (e : GoError) (h : HeaderMap) (m2 : String) :
    GoError.Headers (.basic c msg none ca) = [] ∧
    GoError.Headers (.basic c msg (some h) ca) = h ∧
    (New c msg).Headers = [] ∧
    (Wrap c msg e).Headers = [] ∧
    (BadRequest m2).Headers = [] ∧
    (Unauthorized m2).Headers = [] ∧
    (Forbidden m2).Headers = [] ∧
    (NotFound m2).Headers = [] ∧
    (MethodNotAllowed m2).Headers = [] ∧
    (Conflict m2).Headers = [] ∧
    (UnprocessableEntity m2).Headers = [] ∧
    (InternalServerError m2).Headers = [] ∧
    (NotImplemented m2).Headers = [] ∧
    (BadGateway m2).Headers = [] ∧
    (ServiceUnavailable m2).Headers = [] ∧
    (GatewayTimeout m2).Headers = [] := by
  and_intros <;> rfl

/-!
### Claims about the handler adapters and formatters (C6, C7, C8)
-/

/-- C6: on a nil return the adapter writes nothing beyond what the user
function wrote and the formatter plays no role (the outcome is the same
for every configured formatter); on an error return it normalizes via
`AsHTTPError`, sets every header of the normalized value, then invokes
the configured formatter, or — when none is configured — writes the
status code and the raw message bytes directly.  Both the plain and the
context-aware adapter behave this way. -/
theorem serveHTTP_pipeline_spec (f : HandlerFunc) (g : ContextHandlerFunc)
    (fm fm' : Option Formatter) (w : ResponseWriter) :
    ((f w).2 = none →
      Handler.ServeHTTP ⟨f, fm⟩ w = (f w).1 ∧
      Handler.ServeHTTP ⟨f, fm⟩ w = Handler.ServeHTTP ⟨f, fm'⟩ w) ∧
    (∀ err, (f w).2 = some err →
      Handler.ServeHTTP ⟨f, fm⟩ w =
        match fm with
        | some fmt =>
            fmt (setErrHeaders (f w).1 (AsHTTPError err).Headers)
              (AsHTTPError err)
        | none =>
            ((setErrHeaders (f w).1 (AsHTTPError err).Headers).writeHeader
                (AsHTTPError err).StatusCode).write
              (AsHTTPError err).Message) ∧
    ((g () w).2 = none →
      ContextHandler.ServeHTTP ⟨g, fm⟩ w = (g () w).1 ∧
      ContextHandler.ServeHTTP ⟨g, fm⟩ w =
        ContextHandler.ServeHTTP ⟨g, fm'⟩ w) ∧
    (∀ err, (g () w).2 = some err →
      ContextHandler.ServeHTTP ⟨g, fm⟩ w =
        match fm with
        | some fmt =>
            fmt (setErrHeaders (g () w).1 (AsHTTPError err).Headers)
              (AsHTTPError err)
        | none =>
            ((setErrHeaders (g () w).1 (AsHTTPError err).Headers).writeHeader
                (AsHTTPError err).StatusCode).write
              (AsHTTPError err).Message) := by
  refine ⟨?_, ?_, ?_, ?_⟩
  · intro hnone
    rcases hfw : f w with ⟨w1, oe⟩
    rw [hfw] at hnone
    simp only at hnone
    subst hnone
    constructor <;> simp [Handler.ServeHTTP, hfw]
  · intro err heq
    rcases hfw : f w with ⟨w1, oe⟩
    rw [hfw] at heq
    simp only at heq
    subst heq
    cases fm <;>
      simp [Handler.ServeHTTP, Handler.handleError, hfw]
  · intro hnone
    rcases hgw : g () w with ⟨w1, oe⟩
    rw [hgw] at hnone
    simp only at hnone
    subst hnone
    constructor <;> simp [ContextHandler.ServeHTTP, hgw]
  · intro err heq
    rcases hgw : g () w with ⟨w1, oe⟩
    rw [hgw] at heq
    simp only at heq
    subst heq
    cases fm <;>
      simp [ContextHandler.ServeHTTP, ContextHandler.handleError, hgw]

/-- Witness for C6 at concrete inputs: a user function returning nil
leaves the writer exactly as the user function left it, and a plain
error through the no-formatter fallback writes the generic 500 status
and message bytes directly. -/
theorem serveHTTP_pipeline_spec_witness :
    Handler.ServeHTTP
        ⟨fun w => (w.write "ok", none), some PlainTextFormatter⟩
        ⟨[], none, ""⟩ =
      ⟨[], some 200, "ok"⟩ ∧
    Handler.ServeHTTP ⟨fun w => (w, some (.custom "boom" none)), none⟩
        ⟨[], none, ""⟩ =
      ⟨[], some 500, "An unexpected error occurred"⟩ := by
  constructor
  · have h := (serveHTTP_pipeline_spec (fun w => (w.write "ok", none))
      (fun _ w => (w, none)) (some PlainTextFormatter)
      (some PlainTextFormatter) ⟨[], none, ""⟩).1 rfl
    exact h.1.trans (by decide)
  · have h := ((serveHTTP_pipeline_spec
      (fun w => (w, some (.custom "boom" none))) (fun _ w => (w, none))
      none none ⟨[], none, ""⟩).2.1 (.custom "boom" none) rfl)
    exact h.trans (by decide)

/-- C7: a handler built by `NewHandler` (default plain-text formatter)
whose user function returns `NotFound "resource not found"` responds
with status 404, `Content-Type: text/plain`, and exactly the message
bytes as body. -/
theorem notFound_plaintext_end_to_end :
    ((NewHandler (fun w => (w, some (NotFound "resource not found")))).ServeHTTP
        ⟨[], none, ""⟩).status = some 404 ∧
    lookupKV ((NewHandler
        (fun w => (w, some (NotFound "resource not found")))).ServeHTTP
        ⟨[], none, ""⟩).headers "Content-Type" = some "text/plain" ∧
    ((NewHandler (fun w => (w, some (NotFound "resource not found")))).ServeHTTP
        ⟨[], none, ""⟩).body = "resource not found" := by
  decide

/-- C8: on a fresh response the JSON formatter sets `Content-Type:
application/json`, commits the error's status code, and appends the
marshalled `{error, status, code}` object — `code` being the standard
reason phrase of the status, the object indented exactly when the
constructor's flag is set; in particular `NotFound "resource not
found"` yields status 404 and the compact body
`{"error":"resource not found","status":404,"code":"Not Found"}`. -/
theorem jsonFormatter_spec (pretty : Bool) (w : ResponseWriter)
    (e : GoError) (hw : w.status = none) :
    lookupKV (NewJSONFormatter pretty w e).headers "Content-Type" =
      some "application/json" ∧
    (NewJSONFormatter pretty w e).status = some e.StatusCode ∧
    (NewJSONFormatter pretty w e).body = w.body ++
      (if pretty then
        marshalIndentErrorResponse e.Message e.StatusCode
          (statusText e.StatusCode)
      else
        marshalErrorResponse e.Message e.StatusCode
          (statusText e.StatusCode)) ∧
    statusText 404 = "Not Found" ∧
    (NewJSONFormatter false ⟨[], none, ""⟩
        (NotFound "resource not found")).status = some 404 ∧
    (NewJSONFormatter false ⟨[], none, ""⟩
        (NotFound "resource not found")).body =
      "\x7b\"error\":\"resource not found\",\"status\":404,\"code\":\"Not Found\"\x7d" := by
  refine ⟨?_, ?_, ?_, by decide, by decide, by decide⟩
  · show lookupKV (((w.setHeader "Content-Type"
      "application/json").writeHeader e.StatusCode).write _).headers
        "Content-Type" = _
    have hh : (((w.setHeader "Content-Type"
        "application/json").writeHeader e.StatusCode).write
          (if pretty then
            marshalIndentErrorResponse e.Message e.StatusCode
              (statusText e.StatusCode)
          else
            marshalErrorResponse e.Message e.StatusCode
              (statusText e.StatusCode))).headers =
        setKV w.headers "Content-Type" "application/json" := by
      simp [ResponseWriter.setHeader, ResponseWriter.writeHeader,
        ResponseWriter.write, hw]
    rw [hh, lookup_setKV]
    simp
  · simp [NewJSONFormatter, ResponseWriter.setHeader,
      ResponseWriter.writeHeader, ResponseWriter.write, hw]
  · simp [NewJSONFormatter, ResponseWriter.setHeader,
      ResponseWriter.writeHeader, ResponseWriter.write, hw]

/-- Witness for C8 at a concrete input, pretty-printed: the indented
marshalling of `NotFound "x"` on a fresh response. -/
theorem jsonFormatter_spec_witness :
    lookupKV (NewJSONFormatter true ⟨[], none, ""⟩
        (NotFound "x")).headers "Content-Type" =
      some "application/json" ∧
    (NewJSONFormatter true ⟨[], none, ""⟩ (NotFound "x")).status =
      some 404 ∧
    (NewJSONFormatter true ⟨[], none, ""⟩ (NotFound "x")).body =
      "\x7b\n  \"error\": \"x\",\n  \"status\": 404,\n  \"code\": \"Not Found\"\n\x7d" := by
  have h := jsonFormatter_spec true ⟨[], none, ""⟩ (NotFound "x") rfl
  exact ⟨h.1, h.2.1.trans (by decide), (h.2.2.1).trans (by decide)⟩

/-!
### The frame claim (C2): no shared mutable header storage
-/

namespace Heap

theorem readRef_append_lt (s : Store) (h : HeaderMap) (r : Nat)
    (hr : r < s.length) : readRef (s ++ [h]) r = readRef s r := by
  unfold readRef
  rw [List.getElem?_append_left hr]

theorem readRef_set_ne (s : Store) (r rw : Nat) (h : HeaderMap)
    (hne : rw ≠ r) : readRef (writeRef s rw h) r = readRef s r := by
  unfold readRef writeRef
  rw [List.getElem?_set_ne hne]

theorem withHeaders_ref (s : Store) (e : GoError) (m : HeaderMap) :
    (WithHeaders s e m).1.headerRef = some s.length := by
  cases e <;> rfl

theorem withHeaders_store (s : Store) (e : GoError) (m : HeaderMap) :
    ∃ nh, (WithHeaders s e m).2 = s ++ [nh] := by
  cases e <;> exact ⟨_, rfl⟩

theorem withHeaders_store_length (s : Store) (e : GoError) (m : HeaderMap) :
    (WithHeaders s e m).2.length = s.length + 1 := by
  obtain ⟨nh, hnh⟩ := withHeaders_store s e m
  rw [hnh]
  simp

theorem readRef_withHeaders (s : Store) (e : GoError) (m : HeaderMap)
    (r : Nat) (hr : r < s.length) :
    readRef (WithHeaders s e m).2 r = readRef s r := by
  obtain ⟨nh, hnh⟩ := withHeaders_store s e m
  rw [hnh, readRef_append_lt s nh r hr]

theorem headers_congr (s s' : Store) (e : GoError)
    (hag : ∀ r, e.headerRef = some r → readRef s' r = readRef s r) :
    GoError.Headers s' e = GoError.Headers s e := by
  cases e with
  | basic c msg hr ca =>
      cases hr with
      | none => rfl
      | some r => exact hag r rfl
  | custom em cap =>
      cases cap with
      | none => rfl
      | some c =>
          obtain ⟨st, msg, r⟩ := c
          exact hag r rfl

end Heap

/-- C2: `WithHeaders` never mutates its input.  In the store-passing
model, two successive calls on the same value `e` (all of whose map
references are live in the store) allocate two fresh, distinct header
maps: neither result's reference is `e`'s, the two results' references
differ, `e`'s observable headers after both calls are what they were
before, and overwriting either result's map afterwards changes neither
`e`'s headers nor the other result's. -/
theorem withHeaders_no_shared_storage (s : Heap.Store) (e : Heap.GoError)
    (m1 m2 : HeaderMap)
    (hv : ∀ r, e.headerRef = some r → r < s.length) :
    (Heap.WithHeaders s e m1).1.headerRef ≠ e.headerRef ∧
    (Heap.WithHeaders (Heap.WithHeaders s e m1).2 e m2).1.headerRef ≠
      e.headerRef ∧
    (Heap.WithHeaders s e m1).1.headerRef ≠
      (Heap.WithHeaders (Heap.WithHeaders s e m1).2 e m2).1.headerRef ∧
    Heap.GoError.Headers (Heap.WithHeaders (Heap.WithHeaders s e m1).2 e
        m2).2 e =
      Heap.GoError.Headers s e ∧
    (∀ h r1 r2, (Heap.WithHeaders s e m1).1.headerRef = some r1 →
      (Heap.WithHeaders (Heap.WithHeaders s e m1).2 e m2).1.headerRef =
        some r2 →
      (Heap.GoError.Headers (Heap.writeRef (Heap.WithHeaders
          (Heap.WithHeaders s e m1).2 e m2).2 r1 h) e =
        Heap.GoError.Headers (Heap.WithHeaders (Heap.WithHeaders s e
          m1).2 e m2).2 e ∧
       Heap.GoError.Headers (Heap.writeRef (Heap.WithHeaders
          (Heap.WithHeaders s e m1).2 e m2).2 r2 h) e =
        Heap.GoError.Headers (Heap.WithHeaders (Heap.WithHeaders s e
          m1).2 e m2).2 e ∧
       Heap.readRef (Heap.writeRef (Heap.WithHeaders (Heap.WithHeaders s
          e m1).2 e m2).2 r1 h) r2 =
        Heap.readRef (Heap.WithHeaders (Heap.WithHeaders s e m1).2 e
          m2).2 r2 ∧
       Heap.readRef (Heap.writeRef (Heap.WithHeaders (Heap.WithHeaders s
          e m1).2 e m2).2 r2 h) r1 =
        Heap.readRef (Heap.WithHeaders (Heap.WithHeaders s e m1).2 e
          m2).2 r1)) := by
  set s1 := (Heap.WithHeaders s e m1).2 with hs1
  have href1 : (Heap.WithHeaders s e m1).1.headerRef = some s.length :=
    Heap.withHeaders_ref s e m1
  have hlen1 : s1.length = s.length + 1 :=
    Heap.withHeaders_store_length s e m1
  have href2 :
      (Heap.WithHeaders s1 e m2).1.headerRef = some s1.length :=
    Heap.withHeaders_ref s1 e m2
  have hne_e1 : (Heap.WithHeaders s e m1).1.headerRef ≠ e.headerRef := by
    rw [href1]
    intro hcontra
    have := hv s.length hcontra.symm
    omega
  have hne_e2 : (Heap.WithHeaders s1 e m2).1.headerRef ≠ e.headerRef := by
    rw [href2]
    intro hcontra
    have := hv s1.length hcontra.symm
    omega
  have hne_12 : (Heap.WithHeaders s e m1).1.headerRef ≠
      (Heap.WithHeaders s1 e m2).1.headerRef := by
    rw [href1, href2]
    intro hcontra
    have : s.length = s1.length := Option.some.inj hcontra
    omega
  have hpreserve : Heap.GoError.Headers (Heap.WithHeaders s1 e m2).2 e =
      Heap.GoError.Headers s e := by
    apply Heap.headers_congr
    intro r hr
    have hrlt : r < s.length := hv r hr
    have hrlt1 : r < s1.length := by omega
    rw [Heap.readRef_withHeaders s1 e m2 r hrlt1,
      hs1, Heap.readRef_withHeaders s e m1 r hrlt]
  refine ⟨hne_e1, hne_e2, hne_12, hpreserve, ?_⟩
  intro h r1 r2 hr1 hr2
  have hr1v : r1 = s.length := by
    rw [href1] at hr1
    exact (Option.some.inj hr1).symm
  have hr2v : r2 = s1.length := by
    rw [href2] at hr2
    exact (Option.some.inj hr2).symm
  have hwrite_e : ∀ rw, (∀ r, e.headerRef = some r → rw ≠ r) →
      Heap.GoError.Headers
        (Heap.writeRef (Heap.WithHeaders s1 e m2).2 rw h) e =
      Heap.GoError.Headers (Heap.WithHeaders s1 e m2).2 e := by
    intro rw hrw
    apply Heap.headers_congr
    intro r hr
    exact Heap.readRef_set_ne _ r rw h (hrw r hr)
  refine ⟨?_, ?_, ?_, ?_⟩
  · apply hwrite_e
    intro r hr
    have := hv r hr
    omega
  · apply hwrite_e
    intro r hr
    have := hv r hr
    omega
  · apply Heap.readRef_set_ne
    omega
  · apply Heap.readRef_set_ne
    omega

/-- Witness for C2 at a concrete input: a `basicError` holding map 0 in
a one-map store, with two successive header additions. -/
theorem withHeaders_no_shared_storage_witness :
    (Heap.WithHeaders [[("A", "0")]]
        (.basic 400 "m" (some 0) none) [("B", "1")]).1.headerRef ≠
      Heap.GoError.headerRef (.basic 400 "m" (some 0) none) ∧
    Heap.GoError.Headers (Heap.WithHeaders (Heap.WithHeaders [[("A", "0")]]
        (.basic 400 "m" (some 0) none) [("B", "1")]).2
        (.basic 400 "m" (some 0) none) [("C", "2")]).2
      (.basic 400 "m" (some 0) none) =
      Heap.GoError.Headers [[("A", "0")]] (.basic 400 "m" (some 0) none) := by
  have h := withHeaders_no_shared_storage [[("A", "0")]]
    (.basic 400 "m" (some 0) none) [("B", "1")] [("C", "2")]
    (by intro r hr; simp [Heap.GoError.headerRef] at hr; subst hr; decide)
  exact ⟨h.1, h.2.2.2.1⟩

end Httperror
